import Mathlib

/-!
Shallow embedding of the core of `dashboard.py` (a personal-finance
dashboard): the loader/normalizer `load_data` and the two metric
functions `calcular_metricas` and `calcular_ahorro_historico`.

Monetary amounts are modelled as `Option ℚ`: `none` stands for the NaN
produced by `pd.to_numeric(..., errors='coerce')` on an unparseable
amount, and summation skips `none` entries exactly as pandas `.sum()`
skips NaN (its default `skipna=True`).
-/

/-- A calendar date as produced by the date conversion step. -/
structure Date where
  day : Nat
  month : Nat
  year : Nat
deriving DecidableEq, Repr

/-- One raw CSV row, all fields still text, with the columns the script
reads (`value_date`, `amount`, `main_category`, `sub_category`,
`description`). -/
structure RawRow where
  value_date : String
  amount : String
  main_category : String
  sub_category : String
  description : String
deriving DecidableEq, Repr

/-- One cleaned transaction, as a row of the dataframe returned by
`load_data`.  `amount = none` models a NaN amount. -/
structure Transaction where
  value_date : Date
  amount : Option ℚ
  main_category : String
  sub_category : String
  description : String
  period_key : String
deriving DecidableEq, Repr

/-- Parse a non-empty all-digit character list as a natural number
(helper for the numeric conversion). -/
def digitsToNat? (l : List Char) : Option Nat :=
  if l ≠ [] ∧ l.all Char.isDigit then
    some (l.foldl (fun a c => 10 * a + (c.toNat - 48)) 0)
  else none

/-- Parse an unsigned decimal numeral (digits, optionally with one point
and digits after it) as a rational. -/
def parseUnsignedDecimal (l : List Char) : Option ℚ :=
  if l.contains '.' then
    let ip := l.takeWhile (· ≠ '.')
    let fp := (l.dropWhile (· ≠ '.')).tail
    if fp.contains '.' then none
    else
      match digitsToNat? ip, digitsToNat? fp with
      | some i, some f => some ((i : ℚ) + (f : ℚ) / (10 : ℚ) ^ fp.length)
      | _, _ => none
  else
    (digitsToNat? l).map (fun n => (n : ℚ))

/-- Numeric conversion of a cleaned amount string, modelling
`pd.to_numeric(..., errors='coerce')` on plain decimal text: a valid
(optionally negative) decimal numeral becomes its exact rational value,
anything else becomes the missing marker `none` (pandas NaN) instead of
an error. -/
def to_numeric_coerce (s : String) : Option ℚ :=
  match s.toList with
  | '-' :: rest => (parseUnsignedDecimal rest).map (fun q => -q)
  | l => parseUnsignedDecimal l

/-- Delete every occurrence of character `c`, modelling
`.str.replace('.', '', regex=False)` for the single character `.`. -/
def stripChar (c : Char) (s : String) : String :=
  ⟨s.toList.filter (fun x => x ≠ c)⟩

/-- Replace every occurrence of character `c` by `d`, modelling
`.str.replace(',', '.', regex=False)`. -/
def swapChar (c d : Char) (s : String) : String :=
  ⟨s.toList.map (fun x => if x = c then d else x)⟩

/-- The amount-cleanup pipeline of `load_data`: strip thousands-separator
dots, turn the decimal comma into a point, then convert to a number with
errors coerced to the missing marker. -/
def clean_amount (raw : String) : Option ℚ :=
  to_numeric_coerce (swapChar ',' '.' (stripChar '.' raw))

/-- Number of days in a month (with the Gregorian leap rule), used to
validate parsed dates. -/
def daysInMonth (year month : Nat) : Nat :=
  if month = 2 then
    if year % 4 = 0 ∧ (year % 100 ≠ 0 ∨ year % 400 = 0) then 29 else 28
  else if month = 4 ∨ month = 6 ∨ month = 9 ∨ month = 11 then 30
  else 31

/-- Day-first date parsing, modelling
`pd.to_datetime(..., dayfirst=True)` on `d/m/y` text: split on `/`,
read day, month, year in that order, and accept only a valid calendar
date; anything else fails. -/
def parseDateDayFirst (s : String) : Option Date :=
  match (s.toList.splitOn '/').map digitsToNat? with
  | [some d, some m, some y] =>
    if 1 ≤ m ∧ m ≤ 12 ∧ 1 ≤ d ∧ d ≤ daysInMonth y m then
      some ⟨d, m, y⟩
    else none
  | _ => none

/-- The `YearMonth` column: `value_date.dt.to_period('M').astype(str)`,
i.e. the date truncated to year and month, rendered `YYYY-MM` with a
zero-padded month. -/
def yearMonth (d : Date) : String :=
  toString d.year ++ (if d.month < 10 then "-0" else "-") ++ toString d.month

/-- `load_data` after the CSV has been split into rows: clean the amount
per row (non-fatally), then parse every date day-first.  An unparseable
date raises, which aborts the whole load with an error and yields no
rows at all; the derived `YearMonth` period key is attached to each
surviving transaction. -/
def load_data : List RawRow → Except String (List Transaction)
  | [] => Except.ok []
  | r :: rows =>
    match parseDateDayFirst r.value_date with
    | none => Except.error ("could not parse date " ++ r.value_date)
    | some d =>
      match load_data rows with
      | Except.error e => Except.error e
      | Except.ok ts =>
        Except.ok
          ({ value_date := d
             amount := clean_amount r.amount
             main_category := r.main_category
             sub_category := r.sub_category
             description := r.description
             period_key := yearMonth d } :: ts)

/-- Pandas column sum with its default NaN skipping: add up the amounts
that are present, ignoring missing ones. -/
def sumAmount (l : List Transaction) : ℚ :=
  (l.filterMap Transaction.amount).sum

/-- The fixed consumption category vocabulary `categorias_consumo`. -/
def categorias_consumo : List String :=
  ["FACTURA", "SUSCRIPCIONES", "GASTO", "DEUDAS"]

/-- `calcular_metricas`: on a (possibly month-filtered) transaction list,
returns `(ingresos_netos, gastos_consumo, ahorros_periodo,
resultado_neto)` exactly as the script computes them. -/
def calcular_metricas (df_filtrado : List Transaction) : ℚ × ℚ × ℚ × ℚ :=
  let ingresos_netos := sumAmount (df_filtrado.filter
    (fun t => t.main_category == "INGRESO" && t.sub_category != "Reintegro"))
  let gastos_consumo := sumAmount (df_filtrado.filter
    (fun t => categorias_consumo.contains t.main_category))
  let ahorros_periodo := sumAmount (df_filtrado.filter
    (fun t => t.main_category == "AHORRO" && t.sub_category == "Traspaso"))
  let resultado_neto := ingresos_netos - gastos_consumo - ahorros_periodo
  (ingresos_netos, gastos_consumo, ahorros_periodo, resultado_neto)

/-- `calcular_ahorro_historico`: total savings over the whole history,
the sum of `amount` over rows with `main_category = AHORRO` and
`sub_category = Traspaso`. -/
def calcular_ahorro_historico (df_completo : List Transaction) : ℚ :=
  sumAmount (df_completo.filter
    (fun t => t.main_category == "AHORRO" && t.sub_category == "Traspaso"))

/-- The month filter applied by the dashboard before computing period
metrics: keep the rows whose `YearMonth` is among the selected months. -/
def filtrar_meses (df : List Transaction) (meses : List String) :
    List Transaction :=
  df.filter (fun t => meses.contains t.period_key)

/-- The income aggregate as the specification words it: the sum of
`amount` over exactly those transactions with `main_category = INGRESO`
and `sub_category ≠ Reintegro`. -/
def income_spec (df : List Transaction) : ℚ :=
  sumAmount (df.filter
    (fun t => decide (t.main_category = "INGRESO" ∧ t.sub_category ≠ "Reintegro")))

section Lemmas

lemma sumAmount_nil : sumAmount [] = 0 := rfl

lemma sumAmount_cons (t : Transaction) (l : List Transaction) :
    sumAmount (t :: l) = t.amount.getD 0 + sumAmount l := by
  cases h : t.amount <;> simp [sumAmount, List.filterMap_cons, h]

lemma sumAmount_perm {l l' : List Transaction} (h : l.Perm l') :
    sumAmount l = sumAmount l' :=
  List.Perm.sum_eq (h.filterMap Transaction.amount)

lemma filterMap_amount_filter_isSome (l : List Transaction) :
    ((l.filter (fun t => t.amount.isSome)).filterMap Transaction.amount) =
      l.filterMap Transaction.amount := by
  induction l with
  | nil => rfl
  | cons t l ih =>
    cases h : t.amount <;>
      simp [List.filter_cons, List.filterMap_cons, h, ih]

end Lemmas

/-- C1: the first component of `calcular_metricas` is the sum of
`amount` over exactly the transactions with `main_category = INGRESO`
and `sub_category ≠ Reintegro`; in particular prepending an
INGRESO/Reintegro row leaves the income unchanged. -/
theorem ingresos_netos_spec (df : List Transaction) :
    (calcular_metricas df).1 = income_spec df ∧
    ∀ t : Transaction, t.main_category = "INGRESO" →
      t.sub_category = "Reintegro" →
      (calcular_metricas (t :: df)).1 = (calcular_metricas df).1 := by
  constructor
  · show sumAmount _ = sumAmount _
    congr 1
    refine List.filter_congr (fun t _ => ?_)
    by_cases h1 : t.main_category = "INGRESO" <;>
      by_cases h2 : t.sub_category = "Reintegro" <;> simp [h1, h2]
  · intro t ht hs
    simp [calcular_metricas, List.filter_cons, ht, hs]

theorem ingresos_netos_spec_witness :
    (calcular_metricas
        [⟨⟨1, 3, 2024⟩, some 50, "INGRESO", "Reintegro", "r", "2024-03"⟩]).1 =
      (calcular_metricas []).1 :=
  (ingresos_netos_spec []).2
    ⟨⟨1, 3, 2024⟩, some 50, "INGRESO", "Reintegro", "r", "2024-03"⟩ rfl rfl

/-- C2: the fourth component (net) returned by `calcular_metricas` is
exactly the first (income) minus the second (consumption) minus the
third (savings). -/
theorem resultado_neto_spec (df : List Transaction) :
    (calcular_metricas df).2.2.2 =
      (calcular_metricas df).1 - (calcular_metricas df).2.1 -
        (calcular_metricas df).2.2.1 := rfl

/-- C9: the third component of `calcular_metricas` (period savings)
coincides with `calcular_ahorro_historico` on the same list: both sum
`amount` over the rows with `main_category = AHORRO` and
`sub_category = Traspaso`. -/
theorem ahorros_periodo_eq_historico (df : List Transaction) :
    (calcular_metricas df).2.2.1 = calcular_ahorro_historico df := rfl

/-- Example transactions of the specification's scenario (month
`2024-03`). -/
def txNomina : Transaction :=
  ⟨⟨1, 3, 2024⟩, some 1000, "INGRESO", "Nómina", "nomina", "2024-03"⟩

def txSuper : Transaction :=
  ⟨⟨2, 3, 2024⟩, some 200, "GASTO", "Super", "super", "2024-03"⟩

def txTraspaso : Transaction :=
  ⟨⟨3, 3, 2024⟩, some 100, "AHORRO", "Traspaso", "traspaso", "2024-03"⟩

def txReintegro : Transaction :=
  ⟨⟨4, 3, 2024⟩, some 50, "INGRESO", "Reintegro", "reintegro", "2024-03"⟩

/-- C3: on the four-transaction example scenario, `calcular_metricas`
returns income 1000, consumption 200, savings 100 and net 700. -/
theorem ejemplo_escenario :
    calcular_metricas [txNomina, txSuper, txTraspaso, txReintegro] =
      (1000, 200, 100, 700) := by
  simp [calcular_metricas, categorias_consumo, sumAmount,
    txNomina, txSuper, txTraspaso, txReintegro]
  norm_num

/-- C4: the amount-cleanup pipeline sends `"1.234,56"` to `1234.56`,
`"56,00"` to `56`, and `"abc"` to the missing marker (`none`) rather
than an error. -/
theorem limpieza_amount :
    clean_amount "1.234,56" = some (1234.56 : ℚ) ∧
    clean_amount "56,00" = some (56 : ℚ) ∧
    clean_amount "abc" = none := by
  refine ⟨?_, ?_, ?_⟩
  · simp [clean_amount, to_numeric_coerce, parseUnsignedDecimal,
      digitsToNat?, swapChar, stripChar]
    norm_num
  · simp [clean_amount, to_numeric_coerce, parseUnsignedDecimal,
      digitsToNat?, swapChar, stripChar]
  · simp [clean_amount, to_numeric_coerce, parseUnsignedDecimal,
      digitsToNat?, swapChar, stripChar]

lemma sumAmount_filter_filter_isSome (p : Transaction → Bool)
    (l : List Transaction) :
    sumAmount ((l.filter (fun t => t.amount.isSome)).filter p) =
      sumAmount (l.filter p) := by
  rw [List.filter_comm]
  show (((l.filter p).filter (fun t => t.amount.isSome)).filterMap
      Transaction.amount).sum = _
  rw [filterMap_amount_filter_isSome]
  rfl

/-- C5: rows with a missing amount contribute nothing: both metric
functions return the same values on a list and on its restriction to
the rows whose amount is present (and the results are rationals, so
no aggregate can be NaN). -/
theorem missing_amount_cero (df : List Transaction) :
    calcular_metricas (df.filter (fun t => t.amount.isSome)) =
        calcular_metricas df ∧
    calcular_ahorro_historico (df.filter (fun t => t.amount.isSome)) =
        calcular_ahorro_historico df := by
  constructor
  · simp only [calcular_metricas, sumAmount_filter_filter_isSome]
  · exact sumAmount_filter_filter_isSome _ df

/-- C6: on the empty list, `calcular_metricas` returns `(0, 0, 0, 0)`
and `calcular_ahorro_historico` returns `0`. -/
theorem metricas_vacias :
    calcular_metricas [] = (0, 0, 0, 0) ∧
    calcular_ahorro_historico [] = 0 := by
  constructor
  · simp [calcular_metricas, sumAmount]
  · simp [calcular_ahorro_historico, sumAmount]

/-- An `AHORRO`/`Traspaso` row with a negative amount in January. -/
def txAhorroEnero : Transaction :=
  ⟨⟨1, 1, 2024⟩, some (-100), "AHORRO", "Traspaso", "neg", "2024-01"⟩

/-- An `AHORRO`/`Traspaso` row with a positive amount in February. -/
def txAhorroFebrero : Transaction :=
  ⟨⟨1, 2, 2024⟩, some 50, "AHORRO", "Traspaso", "pos", "2024-02"⟩

/-- C7 fails as stated: selecting only `2024-02` excludes the January
month, which contains an `AHORRO`/`Traspaso` row, yet the historical
savings (−50) is strictly below the period savings (50), because the
excluded savings row has a negative amount. -/
theorem ahorro_historico_ge_counterexample :
    (∃ t ∈ [txAhorroEnero, txAhorroFebrero],
        t.main_category = "AHORRO" ∧ t.sub_category = "Traspaso" ∧
          t.period_key ∉ ["2024-02"]) ∧
    ¬ ((calcular_metricas
          (filtrar_meses [txAhorroEnero, txAhorroFebrero] ["2024-02"])).2.2.1 ≤
        calcular_ahorro_historico [txAhorroEnero, txAhorroFebrero]) := by
  constructor
  · exact ⟨txAhorroEnero, by simp [txAhorroEnero]⟩
  · simp [calcular_metricas, calcular_ahorro_historico, filtrar_meses,
      sumAmount, txAhorroEnero, txAhorroFebrero]

lemma sumAmount_filter_le (p q : Transaction → Bool) (l : List Transaction)
    (h : ∀ t ∈ l, p t = true → q t = false → 0 ≤ t.amount.getD 0) :
    sumAmount ((l.filter q).filter p) ≤ sumAmount (l.filter p) := by
  induction l with
  | nil => exact le_refl 0
  | cons t l ih =>
    have ih' := ih (fun t ht => h t (List.mem_cons_of_mem _ ht))
    by_cases hq : q t = true <;> by_cases hp : p t = true
    · simpa [List.filter_cons, hq, hp, sumAmount_cons] using
        add_le_add_left ih' (t.amount.getD 0)
    · simpa [List.filter_cons, hq, Bool.eq_false_iff.mpr hp] using ih'
    · have h0 : 0 ≤ t.amount.getD 0 :=
        h t (List.mem_cons_self t l) hp (Bool.eq_false_iff.mpr hq)
      simp only [List.filter_cons, Bool.eq_false_iff.mpr hq, hp,
        if_neg, if_pos, sumAmount_cons]
      calc sumAmount ((l.filter q).filter p) ≤ sumAmount (l.filter p) := ih'
        _ ≤ t.amount.getD 0 + sumAmount (l.filter p) := by linarith
    · simpa [List.filter_cons, Bool.eq_false_iff.mpr hq,
        Bool.eq_false_iff.mpr hp] using ih'

/-- C7 amended: if every `AHORRO`/`Traspaso` row falling outside the
selected months has a nonnegative amount, then the period savings over
the month-filtered list is at most the historical savings over the full
list.  (The unrestricted claim is refuted by
`ahorro_historico_ge_counterexample`.) -/
theorem ahorro_historico_ge_amended (df : List Transaction)
    (meses : List String)
    (h : ∀ t ∈ df, t.main_category = "AHORRO" → t.sub_category = "Traspaso" →
        t.period_key ∉ meses → 0 ≤ t.amount.getD 0) :
    (calcular_metricas (filtrar_meses df meses)).2.2.1 ≤
      calcular_ahorro_historico df := by
  show sumAmount _ ≤ sumAmount _
  apply sumAmount_filter_le
  intro t ht hp hq
  simp only [Bool.and_eq_true, beq_iff_eq] at hp
  refine h t ht hp.1 hp.2 ?_
  simpa using hq

theorem ahorro_historico_ge_amended_witness :
    (calcular_metricas
        (filtrar_meses [txAhorroEnero, txAhorroFebrero] ["2024-01", "2024-02"])).2.2.1 ≤
      calcular_ahorro_historico [txAhorroEnero, txAhorroFebrero] :=
  ahorro_historico_ge_amended [txAhorroEnero, txAhorroFebrero]
    ["2024-01", "2024-02"] (by simp [txAhorroEnero, txAhorroFebrero])

/-- C8: `calcular_metricas` is invariant under permutation of the
input rows. -/
theorem metricas_perm (l l' : List Transaction) (h : l.Perm l') :
    calcular_metricas l = calcular_metricas l' := by
  simp only [calcular_metricas]
  rw [sumAmount_perm (h.filter _), sumAmount_perm (h.filter _),
    sumAmount_perm (h.filter _)]

theorem metricas_perm_witness :
    calcular_metricas [txNomina, txSuper] = calcular_metricas [txSuper, txNomina] :=
  metricas_perm [txNomina, txSuper] [txSuper, txNomina]
    (List.Perm.swap txSuper txNomina [])

/-- C10: the load fails (with an error and no transaction list) exactly
when some row's date does not parse day-first; in particular an
unparseable amount alone never makes `load_data` fail. -/
theorem load_data_fatal_iff (rows : List RawRow) :
    (∃ e, load_data rows = Except.error e) ↔
      ∃ r ∈ rows, parseDateDayFirst r.value_date = none := by
  induction rows with
  | nil => simp [load_data]
  | cons r rows ih =>
    cases hd : parseDateDayFirst r.value_date with
    | none =>
      constructor
      · intro _
        exact ⟨r, List.mem_cons_self r rows, hd⟩
      · intro _
        have hld : load_data (r :: rows) =
            Except.error ("could not parse date " ++ r.value_date) := by
          simp [load_data, hd]
        exact ⟨_, hld⟩
    | some d =>
      cases hrec : load_data rows with
      | error e =>
        constructor
        · intro _
          obtain ⟨r', hr', hfail⟩ := ih.mp ⟨e, hrec⟩
          exact ⟨r', List.mem_cons_of_mem r hr', hfail⟩
        · intro _
          exact ⟨e, by simp [load_data, hd, hrec]⟩
      | ok ts =>
        constructor
        · intro ⟨e, he⟩
          simp [load_data, hd, hrec] at he
        · intro ⟨r', hr', hfail⟩
          rcases List.mem_cons.mp hr' with h1 | h1
          · rw [h1] at hfail
            rw [hfail] at hd
            exact absurd hd (by simp)
          · obtain ⟨e, he⟩ := ih.mpr ⟨r', h1, hfail⟩
            rw [he] at hrec
            exact absurd hrec (by simp)
